import Mathlib

/-!
Shallow embedding of the client-side analytics tracking script
(capture/queue/flush engine): configuration, cookie-backed session
store, event normalization and queueing, the flush controller, the
throttled mouse sampler, the debounced scroll-depth milestone tracker,
the click element descriptor, and the public control surface's
activation state machine.

Modelling conventions:
- JS strings are modelled by `String`; the JS `slice`/`trim` operations
  are given explicit code-point-level definitions (`jsSlice`, `jsTrim`).
- JS truthiness of nullable string configuration values (`null` and
  `""` are falsy) is `truthy`.
- Machine time (`Date.now()`) is an `Int` parameter threaded through an
  ambient `Env`; browser globals read at call time (page context,
  viewport, navigator metadata) live in the same `Env`.
- The cookie store holds a `CookieValue`: absent, syntactically corrupt
  (`JSON.parse` throws and the reader catches, returning null), or a
  well-formed serialized `Session`; serialization of a well-formed
  record is modelled as the identity, which is exactly the observable
  contract of `JSON.parse ∘ JSON.stringify` on these field types.
- Network transmission is fire-and-forget: `flush` appends the batch
  payload it hands off to a `sent` log in the state; nothing is ever
  awaited or retried, matching the source.
- `console` output is modelled as the list of log lines a call emits.
-/

namespace WebAnalytics

/-- JS truthiness of a nullable string value: `null`/`undefined` and the
empty string are falsy, every other string is truthy. -/
def truthy : Option String → Bool
  | none => false
  | some s => !(s == "")

/-- Whitespace class used by JS `String.prototype.trim` (restricted to the
ASCII whitespace characters that can occur in the modelled inputs). -/
def jsWhitespace (c : Char) : Bool :=
  c == ' ' || c == '\t' || c == '\n' || c == '\r' || c == '\x0b' || c == '\x0c'

/-- JS `s.trim()`: strip leading and trailing whitespace code points. -/
def jsTrim (s : String) : String :=
  String.mk (((s.data.dropWhile jsWhitespace).reverse.dropWhile jsWhitespace).reverse)

/-- JS `s.slice(0, n)`: the first `n` code points of `s`. -/
def jsSlice (s : String) (n : Nat) : String :=
  String.mk (s.data.take n)

/-- The `CONFIG` object: process-wide mutable settings. -/
structure Config where
  siteId : Option String
  cookieName : String
  cookieExpiry : Nat
  batchSize : Nat
  flushInterval : Nat
  endpoint : String
  trackMouseMovement : Bool
  mouseSampleRate : Int
  debug : Bool
  deriving DecidableEq

/-- The literal initial `CONFIG` values from the source. -/
def defaultConfig : Config :=
  { siteId := none
    cookieName := "wa_session"
    cookieExpiry := 30
    batchSize := 10
    flushInterval := 5000
    endpoint := "https://api.publickeyboard.com/api/analytics"
    trackMouseMovement := true
    mouseSampleRate := 100
    debug := false }

/-- A session record as stored in the cookie. -/
structure Session where
  id : String
  visitorId : String
  startTime : Int
  pageViews : Nat
  isNew : Bool
  lastActivity : Int
  deriving DecidableEq

/-- The raw content of the session cookie: absent, present but not
parseable as JSON, or a well-formed serialized session record. -/
inductive CookieValue where
  | absent
  | corrupt
  | valid (s : Session)
  deriving DecidableEq

namespace Cookie

/-- `Cookie.get`: parse the stored value; a parse failure is caught and
returns null, exactly like an absent cookie. -/
def get : CookieValue → Option Session
  | .absent => none
  | .corrupt => none
  | .valid s => some s

/-- `Cookie.set`: serialize the session record into the cookie slot (the
name/expiry/path attributes address the browser store and are outside
the model). -/
def set (s : Session) : CookieValue :=
  .valid s

end Cookie

/-- `getOrCreateSession`: read the cookie; if absent or unparsable,
synthesize a fresh session (fresh ids are parameters standing for the
two `generateId()` calls); otherwise mark it not-new. In both cases
increment the page-view counter, refresh last-activity, and write the
record back. Returns the session together with the written cookie. -/
def getOrCreateSession (stored : CookieValue) (now : Int)
    (freshId freshVisitorId : String) : Session × CookieValue :=
  let s0 : Session :=
    match Cookie.get stored with
    | none =>
        { id := freshId
          visitorId := freshVisitorId
          startTime := now
          pageViews := 0
          isNew := true
          lastActivity := now }
    | some s => { s with isNew := false }
  let s1 := { s0 with pageViews := s0.pageViews + 1, lastActivity := now }
  (s1, Cookie.set s1)

/-- Page context snapshot re-read at event creation time. -/
structure Page where
  url : String
  path : String
  title : String
  referrer : String
  deriving DecidableEq

/-- Viewport snapshot. -/
structure Viewport where
  width : Int
  height : Int
  deriving DecidableEq

/-- Navigator/screen metadata attached to a flush payload. -/
structure ClientMeta where
  userAgent : String
  language : String
  platform : String
  screenResolution : String
  deriving DecidableEq

/-- Ambient browser environment at the moment of a call. -/
structure Env where
  now : Int
  page : Page
  viewport : Viewport
  meta : ClientMeta

/-- Pointer coordinates, viewport-relative and document-relative. -/
structure Position where
  x : Int
  y : Int
  pageX : Int
  pageY : Int
  deriving DecidableEq

/-- The structural descriptor of a clicked element built by `trackClick`. -/
structure ElementDesc where
  tag : String
  id : Option String
  classes : Option String
  text : String
  href : Option String
  path : String
  deriving DecidableEq

/-- Type-specific payload merged into an event (the `data` argument of
`createEvent`; caller fields never collide with base fields in the
source, so the spread is modelled as a separate field). -/
inductive EventData where
  | pageview (isNewVisitor : Bool) (pageViewNumber : Nat)
  | click (element : ElementDesc) (position : Position)
  | mousemove (position : Position)
  | scroll (depth : Int) (position : Int)
  | formInteraction (eventType : String) (tag : String) (fieldType : Option String)
      (fieldName : Option String) (fieldId : Option String) (path : String)
  | visibility (state : String) (hidden : Bool)
  | errorInfo (message : String) (source : String) (line : Int) (column : Int)
      (stack : Option String)
  | pageExit (timeOnPage : Int) (engagementTime : Int) (scrollDepth : Int)
  | identifyData (userId : String)
  | custom (payload : String)
  deriving DecidableEq

/-- One captured event record. -/
structure Event where
  type : String
  timestamp : Int
  sessionId : String
  visitorId : String
  page : Page
  viewport : Viewport
  data : EventData
  deriving DecidableEq

/-- A batch payload handed to the transport. -/
structure Payload where
  events : List Event
  site_id : String
  meta : ClientMeta
  deriving DecidableEq

/-- Process-wide tracker state: configuration, the in-memory event
queue, the log of payloads handed to the transport, and the
`window._waInitialized` flag. `initCount` is a ghost counter of how
many times the `init()` body has run past its site-id guard (attaching
listeners, starting timers, firing the initial pageview). -/
structure TrackerState where
  config : Config
  queue : List Event
  sent : List Payload
  waInitialized : Bool
  initCount : Nat
  deriving DecidableEq

/-- The console warning emitted by `createEvent` in debug mode when no
site id is configured. -/
def siteIdWarning : String :=
  "[Analytics] site_id not configured. Call WebAnalytics.setSiteId() or use data-site-id attribute."

/-- `createEvent(type, data)`: returns null (warning only in debug mode)
when no site id is configured; otherwise builds the event record from
the session and the ambient environment re-read at call time. Returns
the optional event together with the console lines emitted. -/
def createEvent (cfg : Config) (sess : Session) (env : Env)
    (type : String) (data : EventData) : Option Event × List String :=
  if truthy cfg.siteId = false then
    (none, if cfg.debug then [siteIdWarning] else [])
  else
    (some { type := type
            timestamp := env.now
            sessionId := sess.id
            visitorId := sess.visitorId
            page := env.page
            viewport := env.viewport
            data := data }, [])

/-- `flush()`: no-op when the queue is empty or no site id is
configured; otherwise swap the queue out, build the batch payload, and
hand it to the transport (recorded in `sent`). -/
def flush (env : Env) (s : TrackerState) : TrackerState :=
  if s.queue.length == 0 || !(truthy s.config.siteId) then s
  else
    { s with
        queue := []
        sent := s.sent ++
          [{ events := s.queue
             site_id := s.config.siteId.getD ""
             meta := env.meta }] }

/-- `trackEvent(type, data)`: create the event; if null, skip; otherwise
append to the queue (debug log line), and if the queue length has
reached the batch size, flush synchronously. Returns the new state and
the console lines emitted. -/
def trackEvent (sess : Session) (env : Env) (type : String)
    (data : EventData) (s : TrackerState) : TrackerState × List String :=
  match createEvent s.config sess env type data with
  | (none, logs) => (s, logs)
  | (some event, _) =>
      let s1 := { s with queue := s.queue ++ [event] }
      let logs := if s1.config.debug then ["[Analytics] " ++ type] else []
      if s1.config.batchSize ≤ s1.queue.length then (flush env s1, logs)
      else (s1, logs)

/-- A node on the chain from an element up to (excluding) body, with the
fields `getElementPath` reads. -/
structure ElemNode where
  tagName : String
  id : String
  className : String
  deriving DecidableEq

/-- The class part of a path selector:
`className.trim().split(/\s+/).slice(0, 2).join('.')`. -/
def classSelector (className : String) : String :=
  String.intercalate "."
    ((((jsTrim className).split (fun c => jsWhitespace c)).filter (fun x => x ≠ "")).take 2)

/-- The selector list built by `getElementPath`'s climb loop, in climb
order (element first): stop with a `tag#id` selector as soon as a node
has an id, otherwise append up to two classes and continue upward. -/
def pathSelectorList : List ElemNode → List String
  | [] => []
  | el :: rest =>
      let selector := el.tagName.toLower
      if el.id ≠ "" then [selector ++ "#" ++ el.id]
      else
        let classes := classSelector el.className
        let selector := if classes ≠ "" then selector ++ "." ++ classes else selector
        selector :: pathSelectorList rest

/-- `getElementPath(element)`: `"body"` for a null/body element,
otherwise the climb-loop selectors joined outermost-first with `" > "`
(the source builds the same order by `unshift`). -/
def getElementPath (chain : List ElemNode) : String :=
  if chain.isEmpty then "body"
  else String.intercalate " > " (pathSelectorList chain).reverse

/-- A DOM element as read by `trackClick`: own fields plus the chain of
strict ancestors up to (excluding) body. -/
structure DomElement where
  tagName : String
  id : String
  className : String
  textContent : String
  href : Option String
  closestAnchorHref : Option String
  parentChain : List ElemNode
  deriving DecidableEq

/-- JS `a || b || null` on nullable strings. -/
def jsOrNull (a b : Option String) : Option String :=
  if truthy a then a else if truthy b then b else none

/-- The element descriptor built by `trackClick`: note the text field is
`(target.textContent || '').slice(0, 100).trim()` — the text content is
truncated to 100 code points first and the result trimmed after. -/
def trackClickDescriptor (target : DomElement) : ElementDesc :=
  { tag := target.tagName.toLower
    id := if target.id = "" then none else some target.id
    classes := if target.className = "" then none else some target.className
    text := jsTrim (jsSlice target.textContent 100)
    href := jsOrNull target.href target.closestAnchorHref
    path := getElementPath
      (⟨target.tagName, target.id, target.className⟩ :: target.parentChain) }

/-- `trackClick(e)`: enqueue a click event carrying the element
descriptor and pointer coordinates. -/
def trackClick (sess : Session) (env : Env) (target : DomElement)
    (pos : Position) (s : TrackerState) : TrackerState × List String :=
  trackEvent sess env "click" (.click (trackClickDescriptor target) pos) s

/-- Stated from the claim's words, for comparison with the source: the
first 100 characters of the trimmed text content (whitespace stripped
first, then truncated). -/
def specClickText (textContent : String) : String :=
  jsSlice (jsTrim textContent) 100

/-- Throttle state of the mouse-move sampler: the shared last-sample
timestamp plus the capture times of the mousemove events queued. -/
structure MouseState where
  lastMouseSample : Int
  queuedTimes : List Int
  deriving DecidableEq

/-- `trackMouseMove(e)` at time `now`: drop the signal entirely when it
arrives within `mouseSampleRate` of the last accepted sample, otherwise
record the sample time and queue a mousemove event. -/
def trackMouseMoveStep (rate : Int) (s : MouseState) (now : Int) : MouseState :=
  if now - s.lastMouseSample < rate then s
  else { lastMouseSample := now, queuedTimes := s.queuedTimes ++ [now] }

/-- Run a sequence of mouse-move signal times through the sampler from
last-sample timestamp `L` (the module initializes it to 0). -/
def runMouse (rate : Int) (L : Int) (times : List Int) : MouseState :=
  times.foldl (trackMouseMoveStep rate) { lastMouseSample := L, queuedTimes := [] }

/-- One settled scroll signal: the ambient values the debounce callback
reads when it fires. -/
structure ScrollSignal where
  scrollTop : Int
  bodyScrollHeight : Int
  docScrollHeight : Int
  innerHeight : Int
  deriving DecidableEq

/-- The scroll depth computed by the debounce callback:
`docHeight = max(body.scrollHeight, documentElement.scrollHeight) - innerHeight`;
depth is `Math.round(scrollTop / docHeight * 100)` when `docHeight > 0`
(for nonnegative arguments `Math.round x = ⌊x + 1/2⌋`, here written with
integer floor division), else 0. -/
def computeScrollDepth (sig : ScrollSignal) : Int :=
  let docHeight := max sig.bodyScrollHeight sig.docScrollHeight - sig.innerHeight
  if docHeight > 0 then (200 * sig.scrollTop + docHeight) / (2 * docHeight) else 0

/-- Scroll milestone state: the process-wide running maximum
`lastScrollDepth` plus the depth values of the scroll events emitted. -/
structure ScrollState where
  lastScrollDepth : Int
  emittedDepths : List Int
  deriving DecidableEq

/-- The body of `trackScroll`'s settled debounce callback: emit a scroll
event only when the computed depth exceeds the running maximum by more
than 10 percentage points, and then raise the maximum to it. -/
def trackScrollFire (s : ScrollState) (sig : ScrollSignal) : ScrollState :=
  let scrollDepth := computeScrollDepth sig
  if scrollDepth > s.lastScrollDepth + 10 then
    { lastScrollDepth := scrollDepth, emittedDepths := s.emittedDepths ++ [scrollDepth] }
  else s

/-- Run a sequence of settled scroll signals from the initial state
(`lastScrollDepth = 0`, nothing emitted). -/
def runScroll (sigs : List ScrollSignal) : ScrollState :=
  sigs.foldl trackScrollFire { lastScrollDepth := 0, emittedDepths := [] }

/-- `WebAnalytics.setSiteId(siteId)`: overwrite the configured site id
unconditionally; then, if the new value is truthy and the process-wide
flag is not yet set, set the flag and run `init()`. -/
def setSiteId (siteId : Option String) (s : TrackerState) : TrackerState :=
  let s1 := { s with config := { s.config with siteId := siteId } }
  if truthy siteId && !s1.waInitialized then
    { s1 with waInitialized := true, initCount := s1.initCount + 1 }
  else s1

/-- The script's load-time dispatch (run directly, or from the
`DOMContentLoaded` listener when the document was still loading): if a
site id is configured at that moment, set the flag and run `init()` —
without consulting the flag first. -/
def domReadyDispatch (s : TrackerState) : TrackerState :=
  if truthy s.config.siteId then
    { s with waInitialized := true, initCount := s.initCount + 1 }
  else s

/-- An activation-relevant occurrence: a public `setSiteId` call or the
single load-time dispatch. -/
inductive StartupEv where
  | setSite (v : Option String)
  | domReady
  deriving DecidableEq

/-- Interleaving semantics of the activation surface. -/
def startupStep (s : TrackerState) : StartupEv → TrackerState
  | .setSite v => setSiteId v s
  | .domReady => domReadyDispatch s

/-- The tracker state at script load with no declarative site id. -/
def startupInitial : TrackerState :=
  { config := defaultConfig, queue := [], sent := [], waInitialized := false, initCount := 0 }

/-- Host page calls `setSiteId` while the document is still loading,
then the `DOMContentLoaded` dispatch runs. -/
def startupCounterexampleTrace : List StartupEv :=
  [.setSite (some "T1"), .domReady]

/-- Ghost measure for the activation state machine: init executions so
far plus one pending guarded execution while the flag is unset. -/
def initPotential (s : TrackerState) : Nat :=
  s.initCount + (if s.waInitialized then 0 else 1)

/-- Concrete sample data used to instantiate proved theorems. -/
def sampleMeta : ClientMeta :=
  { userAgent := "ua", language := "en", platform := "linux", screenResolution := "1920x1080" }

def samplePage : Page :=
  { url := "https://example.com/", path := "/", title := "Home", referrer := "" }

def sampleEnv : Env :=
  { now := 1000, page := samplePage, viewport := { width := 800, height := 600 }, meta := sampleMeta }

def sampleSession : Session :=
  { id := "sid-1", visitorId := "vid-1", startTime := 0, pageViews := 1, isNew := false,
    lastActivity := 0 }

def activeConfig : Config :=
  { defaultConfig with siteId := some "T1" }

/-- An active tracker state with an empty queue. -/
def sampleState : TrackerState :=
  { config := activeConfig, queue := [], sent := [], waInitialized := true, initCount := 1 }

def sampleEvent : Event :=
  { type := "pageview"
    timestamp := 1000
    sessionId := "sid-1"
    visitorId := "vid-1"
    page := samplePage
    viewport := { width := 800, height := 600 }
    data := .pageview false 1 }

/-- An active tracker state with one queued event. -/
def sampleQueuedState : TrackerState :=
  { sampleState with queue := [sampleEvent] }

/-- A stored session a page reload starts from. -/
def sampleStoredSession : Session :=
  { id := "sid-0", visitorId := "vid-0", startTime := 10, pageViews := 3, isNew := false,
    lastActivity := 20 }

/-- A clicked element whose text content is 100 spaces followed by one
letter. -/
def clickSampleElement : DomElement :=
  { tagName := "DIV"
    id := ""
    className := ""
    textContent := String.mk (List.replicate 100 ' ') ++ "a"
    href := none
    closestAnchorHref := none
    parentChain := [] }

/-- Invariant of the mouse sampler: the queued capture times are spaced
by at least the sample interval, and the last queued time (if any) is
the shared last-sample timestamp. -/
def mouseInv (rate : Int) (s : MouseState) : Prop :=
  List.Chain' (fun a b => rate ≤ b - a) s.queuedTimes ∧
  (s.queuedTimes = [] ∨ s.queuedTimes.getLast? = some s.lastMouseSample)

/-- Invariant of the scroll milestone tracker: emitted depths climb from
0 in steps of more than the 10-point margin, and the running maximum is
the last emitted depth (or its initial 0). -/
def scrollInv (s : ScrollState) : Prop :=
  List.Chain (fun a b => a + 10 < b) 0 s.emittedDepths ∧
  s.emittedDepths.getLastD 0 = s.lastScrollDepth

/-- Three mouse-move signal times inside one 100 ms window. -/
def sampleMouseTimes : List Int := [1000, 1050, 1090]

/-- Two settled scroll signals on a page of scrollable height 100. -/
def sampleScrollSignals : List ScrollSignal :=
  [{ scrollTop := 50, bodyScrollHeight := 200, docScrollHeight := 200, innerHeight := 100 },
   { scrollTop := 100, bodyScrollHeight := 200, docScrollHeight := 200, innerHeight := 100 }]

/-- C1: with a site id configured, every `trackEvent` call appends the
created event to the queue, and when the queue length thereby reaches
the configured batch size (default 10) a flush runs synchronously in
the same call, leaving the queue empty immediately after. -/
theorem claim_C1 (sess : Session) (env : Env) (ty : String) (d : EventData)
    (s : TrackerState) (h : truthy s.config.siteId = true) :
    defaultConfig.batchSize = 10 ∧
    ∃ ev : Event, (createEvent s.config sess env ty d).1 = some ev ∧
      ((s.queue.length + 1 < s.config.batchSize ∧
        (trackEvent sess env ty d s).1.queue = s.queue ++ [ev]) ∨
       (s.config.batchSize ≤ s.queue.length + 1 ∧
        (trackEvent sess env ty d s).1.queue = [])) := by
  have hev : createEvent s.config sess env ty d =
      (some { type := ty
              timestamp := env.now
              sessionId := sess.id
              visitorId := sess.visitorId
              page := env.page
              viewport := env.viewport
              data := d }, []) := by
    simp [createEvent, h]
  refine ⟨rfl, ?_⟩
  refine ⟨_, by rw [hev], ?_⟩
  by_cases hb : s.config.batchSize ≤ s.queue.length + 1
  · refine Or.inr ⟨hb, ?_⟩
    simp [trackEvent, hev, hb, flush, h]
  · refine Or.inl ⟨by omega, ?_⟩
    simp [trackEvent, hev, hb]

theorem claim_C1_witness :
    truthy sampleState.config.siteId = true ∧
    (defaultConfig.batchSize = 10 ∧
    ∃ ev : Event,
      (createEvent sampleState.config sampleSession sampleEnv "pageview"
        (.pageview false 1)).1 = some ev ∧
      ((sampleState.queue.length + 1 < sampleState.config.batchSize ∧
        (trackEvent sampleSession sampleEnv "pageview" (.pageview false 1)
          sampleState).1.queue = sampleState.queue ++ [ev]) ∨
       (sampleState.config.batchSize ≤ sampleState.queue.length + 1 ∧
        (trackEvent sampleSession sampleEnv "pageview" (.pageview false 1)
          sampleState).1.queue = []))) :=
  ⟨by decide, claim_C1 sampleSession sampleEnv "pageview" (.pageview false 1)
    sampleState (by decide)⟩

/-- C2: a page load whose stored cookie holds a valid session returns a
session with the same session id and visitor id, `isNew = false`, the
page-view counter incremented by one, the activity timestamp refreshed,
and writes that session back to the cookie, from which an immediate
reload reads it back identically. -/
theorem claim_C2 (stored : CookieValue) (old : Session) (now : Int)
    (fid fvid : String) (h : Cookie.get stored = some old) :
    (getOrCreateSession stored now fid fvid).1.id = old.id ∧
    (getOrCreateSession stored now fid fvid).1.visitorId = old.visitorId ∧
    (getOrCreateSession stored now fid fvid).1.isNew = false ∧
    (getOrCreateSession stored now fid fvid).1.pageViews = old.pageViews + 1 ∧
    (getOrCreateSession stored now fid fvid).1.lastActivity = now ∧
    (getOrCreateSession stored now fid fvid).2 =
      Cookie.set (getOrCreateSession stored now fid fvid).1 ∧
    Cookie.get (getOrCreateSession stored now fid fvid).2 =
      some (getOrCreateSession stored now fid fvid).1 := by
  cases stored with
  | absent => simp [Cookie.get] at h
  | corrupt => simp [Cookie.get] at h
  | valid sv =>
      simp only [Cookie.get, Option.some.injEq] at h
      subst h
      simp [getOrCreateSession, Cookie.get, Cookie.set]

theorem claim_C2_witness :
    Cookie.get (.valid sampleStoredSession) = some sampleStoredSession ∧
    ((getOrCreateSession (.valid sampleStoredSession) 1000 "f1" "f2").1.id =
      sampleStoredSession.id ∧
     (getOrCreateSession (.valid sampleStoredSession) 1000 "f1" "f2").1.visitorId =
      sampleStoredSession.visitorId ∧
     (getOrCreateSession (.valid sampleStoredSession) 1000 "f1" "f2").1.isNew = false ∧
     (getOrCreateSession (.valid sampleStoredSession) 1000 "f1" "f2").1.pageViews =
      sampleStoredSession.pageViews + 1 ∧
     (getOrCreateSession (.valid sampleStoredSession) 1000 "f1" "f2").1.lastActivity = 1000 ∧
     (getOrCreateSession (.valid sampleStoredSession) 1000 "f1" "f2").2 =
      Cookie.set (getOrCreateSession (.valid sampleStoredSession) 1000 "f1" "f2").1 ∧
     Cookie.get (getOrCreateSession (.valid sampleStoredSession) 1000 "f1" "f2").2 =
      some (getOrCreateSession (.valid sampleStoredSession) 1000 "f1" "f2").1) :=
  ⟨by decide, claim_C2 (.valid sampleStoredSession) sampleStoredSession 1000 "f1" "f2"
    (by decide)⟩

/-- C3: with no site id configured, `createEvent` returns null,
`trackEvent` is a no-op leaving the whole state (hence the queue)
unchanged, and nothing is logged unless debug mode is enabled. -/
theorem claim_C3 (sess : Session) (env : Env) (ty : String) (d : EventData)
    (s : TrackerState) (h : truthy s.config.siteId = false) :
    (createEvent s.config sess env ty d).1 = none ∧
    (trackEvent sess env ty d s).1 = s ∧
    (trackEvent sess env ty d s).1.queue.length = s.queue.length ∧
    (trackEvent sess env ty d s).2 =
      (if s.config.debug then [siteIdWarning] else []) := by
  refine ⟨by simp [createEvent, h], ?_, ?_, ?_⟩ <;>
    simp [trackEvent, createEvent, h]

theorem claim_C3_witness :
    truthy startupInitial.config.siteId = false ∧
    ((createEvent startupInitial.config sampleSession sampleEnv "pageview"
        (.pageview false 1)).1 = none ∧
     (trackEvent sampleSession sampleEnv "pageview" (.pageview false 1)
        startupInitial).1 = startupInitial ∧
     (trackEvent sampleSession sampleEnv "pageview" (.pageview false 1)
        startupInitial).1.queue.length = startupInitial.queue.length ∧
     (trackEvent sampleSession sampleEnv "pageview" (.pageview false 1)
        startupInitial).2 =
      (if startupInitial.config.debug then [siteIdWarning] else [])) :=
  ⟨by decide, claim_C3 sampleSession sampleEnv "pageview" (.pageview false 1)
    startupInitial (by decide)⟩

/-- C6: `flush` on an empty queue or without a site id is a no-op with
no transmission attempt and no state change; `flush` is idempotent, so
two successive flushes with nothing queued in between hand off exactly
one payload. -/
theorem claim_C6 (env : Env) (s : TrackerState) :
    (s.queue = [] → flush env s = s) ∧
    (truthy s.config.siteId = false → flush env s = s) ∧
    flush env (flush env s) = flush env s ∧
    (s.queue ≠ [] → truthy s.config.siteId = true →
      ((flush env s).sent.length = s.sent.length + 1 ∧
       (flush env (flush env s)).sent.length = s.sent.length + 1)) := by
  have hempty : ∀ t : TrackerState, t.queue = [] → flush env t = t := by
    intro t ht
    simp [flush, ht]
  have hfalsy : ∀ t : TrackerState, truthy t.config.siteId = false → flush env t = t := by
    intro t ht
    simp [flush, ht]
  have hfire : ∀ t : TrackerState, t.queue ≠ [] → truthy t.config.siteId = true →
      (flush env t).queue = [] ∧ (flush env t).sent.length = t.sent.length + 1 := by
    intro t ht hs
    have hlen : (t.queue.length == 0) = false := by
      simp [List.length_eq_zero, ht]
    simp [flush, hlen, hs]
  refine ⟨hempty s, hfalsy s, ?_, ?_⟩
  · by_cases h1 : s.queue = []
    · simp only [hempty s h1]
    · by_cases h2 : truthy s.config.siteId = true
      · exact hempty _ (hfire s h1 h2).1
      · have h2' : truthy s.config.siteId = false := by
          revert h2
          cases truthy s.config.siteId <;> simp
        simp only [hfalsy s h2']
  · intro h1 h2
    refine ⟨(hfire s h1 h2).2, ?_⟩
    rw [hempty _ (hfire s h1 h2).1]
    exact (hfire s h1 h2).2

theorem claim_C6_witness :
    sampleQueuedState.queue ≠ [] ∧
    truthy sampleQueuedState.config.siteId = true ∧
    ((flush sampleEnv sampleQueuedState).sent.length =
      sampleQueuedState.sent.length + 1 ∧
     (flush sampleEnv (flush sampleEnv sampleQueuedState)).sent.length =
      sampleQueuedState.sent.length + 1) :=
  ⟨by decide, by decide,
    (claim_C6 sampleEnv sampleQueuedState).2.2.2 (by decide) (by decide)⟩

/-- C7: a page load whose stored cookie is absent or unparsable never
throws: the cookie reader returns null on parse failure, the corrupted
value is handled identically to an absent one, and a fresh session is
synthesized with the fresh identifiers, one page view, and
`isNew = true`. -/
theorem claim_C7 (stored : CookieValue) (now : Int) (fid fvid : String)
    (h : Cookie.get stored = none) :
    Cookie.get .corrupt = none ∧
    (getOrCreateSession stored now fid fvid).1.pageViews = 1 ∧
    (getOrCreateSession stored now fid fvid).1.isNew = true ∧
    (getOrCreateSession stored now fid fvid).1.id = fid ∧
    (getOrCreateSession stored now fid fvid).1.visitorId = fvid ∧
    (getOrCreateSession stored now fid fvid).1.startTime = now ∧
    getOrCreateSession stored now fid fvid =
      getOrCreateSession .absent now fid fvid := by
  cases stored with
  | absent => simp [getOrCreateSession, Cookie.get]
  | corrupt => simp [getOrCreateSession, Cookie.get]
  | valid sv => simp [Cookie.get] at h

theorem claim_C7_witness :
    Cookie.get .corrupt = none ∧
    (Cookie.get .corrupt = none ∧
     (getOrCreateSession .corrupt 1000 "f1" "f2").1.pageViews = 1 ∧
     (getOrCreateSession .corrupt 1000 "f1" "f2").1.isNew = true ∧
     (getOrCreateSession .corrupt 1000 "f1" "f2").1.id = "f1" ∧
     (getOrCreateSession .corrupt 1000 "f1" "f2").1.visitorId = "f2" ∧
     (getOrCreateSession .corrupt 1000 "f1" "f2").1.startTime = 1000 ∧
     getOrCreateSession .corrupt 1000 "f1" "f2" =
      getOrCreateSession .absent 1000 "f1" "f2") :=
  ⟨by decide, claim_C7 .corrupt 1000 "f1" "f2" (by decide)⟩

/-- C10: `setSiteId` overwrites the configured site id unconditionally
with the supplied value, including null and the empty string; a falsy
value silently re-suppresses the pipeline (`createEvent` returns null
and `trackEvent` is a no-op) while the initialized flag — listeners and
timers — stays exactly as it was. -/
theorem claim_C10 (v : Option String) (s : TrackerState) :
    (setSiteId v s).config.siteId = v ∧
    (truthy v = false →
      (setSiteId v s).waInitialized = s.waInitialized ∧
      (setSiteId v s).initCount = s.initCount ∧
      ∀ (sess : Session) (env : Env) (ty : String) (d : EventData),
        (createEvent (setSiteId v s).config sess env ty d).1 = none ∧
        (trackEvent sess env ty d (setSiteId v s)).1 = setSiteId v s) := by
  constructor
  · simp only [setSiteId]
    split <;> rfl
  · intro hv
    have hs : setSiteId v s = { s with config := { s.config with siteId := v } } := by
      simp [setSiteId, hv]
    refine ⟨by rw [hs], by rw [hs], ?_⟩
    intro sess env ty d
    constructor
    · rw [hs]
      simp [createEvent, hv]
    · rw [hs]
      simp [trackEvent, createEvent, hv]

theorem claim_C10_witness :
    (setSiteId (some "") sampleState).config.siteId = some "" ∧
    truthy (some "") = false ∧
    ((setSiteId (some "") sampleState).waInitialized = sampleState.waInitialized ∧
     (createEvent (setSiteId (some "") sampleState).config sampleSession sampleEnv
        "pageview" (.pageview false 1)).1 = none ∧
     (trackEvent sampleSession sampleEnv "pageview" (.pageview false 1)
        (setSiteId (some "") sampleState)).1 = setSiteId (some "") sampleState) :=
  ⟨(claim_C10 (some "") sampleState).1, by decide,
    ((claim_C10 (some "") sampleState).2 (by decide)).1,
    (((claim_C10 (some "") sampleState).2 (by decide)).2.2 sampleSession sampleEnv
      "pageview" (.pageview false 1)).1,
    (((claim_C10 (some "") sampleState).2 (by decide)).2.2 sampleSession sampleEnv
      "pageview" (.pageview false 1)).2⟩

/-- Helper: signals that all arrive inside the gate of the current
last-sample time are dropped, leaving the sampler state unchanged. -/
theorem mouse_all_dropped (rate : Int) (times : List Int) :
    ∀ s : MouseState, (∀ t ∈ times, t - s.lastMouseSample < rate) →
      times.foldl (trackMouseMoveStep rate) s = s := by
  induction times with
  | nil => intro s _; rfl
  | cons t ts ih =>
      intro s h
      have ht : t - s.lastMouseSample < rate := h t (by simp)
      simp only [List.foldl_cons, trackMouseMoveStep, if_pos ht]
      exact ih s (fun t' ht' => h t' (by simp [ht']))

/-- Helper: one sampler step preserves `mouseInv`. -/
theorem mouse_step_inv (rate : Int) (s : MouseState) (now : Int)
    (h : mouseInv rate s) : mouseInv rate (trackMouseMoveStep rate s now) := by
  unfold trackMouseMoveStep
  by_cases hc : now - s.lastMouseSample < rate
  · simpa [hc] using h
  · simp only [if_neg hc]
    obtain ⟨hch, hlast⟩ := h
    constructor
    · rw [List.chain'_append]
      refine ⟨hch, List.chain'_singleton _, ?_⟩
      intro x hx y hy
      simp only [List.head?_cons, Option.mem_def, Option.some.injEq] at hy
      subst hy
      cases hlast with
      | inl he => rw [he] at hx; simp at hx
      | inr hl =>
          rw [hl] at hx
          simp only [Option.mem_def, Option.some.injEq] at hx
          subst hx
          omega
    · right
      simp [List.getLast?_concat]

/-- Helper: running the sampler preserves `mouseInv`. -/
theorem mouse_run_inv (rate : Int) (times : List Int) :
    ∀ s : MouseState, mouseInv rate s →
      mouseInv rate (times.foldl (trackMouseMoveStep rate) s) := by
  induction times with
  | nil => intro s h; exact h
  | cons t ts ih =>
      intro s h
      exact ih _ (mouse_step_inv rate s t h)

/-- Helper: from any starting last-sample timestamp, a batch of signals
whose times all lie inside one sample-interval window queues at most one
event. -/
theorem mouse_window_aux (rate : Int) (times : List Int) :
    (∀ t ∈ times, ∀ t' ∈ times, t' - t < rate) →
    ∀ L : Int, (runMouse rate L times).queuedTimes.length ≤ 1 := by
  induction times with
  | nil => intro _ L; simp [runMouse]
  | cons t ts ih =>
      intro hw L
      unfold runMouse
      simp only [List.foldl_cons]
      by_cases hc : t - L < rate
      · simp only [trackMouseMoveStep, if_pos hc]
        exact ih (fun a ha b hb => hw a (by simp [ha]) b (by simp [hb])) L
      · simp only [trackMouseMoveStep, if_neg hc, List.nil_append]
        rw [mouse_all_dropped rate ts _
          (fun t' ht' => hw t (by simp) t' (by simp [ht']))]
        simp

/-- C5: two accepted mouse samples are never closer than the configured
sample interval (default 100 ms), and any batch of move signals whose
times all fall within one interval window queues at most one mousemove
event, whatever the sampler's current gate state. -/
theorem claim_C5 (rate L : Int) (times : List Int) :
    defaultConfig.mouseSampleRate = 100 ∧
    List.Chain' (fun a b => rate ≤ b - a) (runMouse rate L times).queuedTimes ∧
    ((∀ t ∈ times, ∀ t' ∈ times, t' - t < rate) →
      (runMouse rate L times).queuedTimes.length ≤ 1) := by
  refine ⟨rfl, ?_, fun hw => mouse_window_aux rate times hw L⟩
  have h0 : mouseInv rate { lastMouseSample := L, queuedTimes := [] } :=
    ⟨List.chain'_nil, Or.inl rfl⟩
  exact (mouse_run_inv rate times _ h0).1

theorem claim_C5_witness :
    defaultConfig.mouseSampleRate = 100 ∧
    List.Chain' (fun a b => (100:Int) ≤ b - a) (runMouse 100 0 sampleMouseTimes).queuedTimes ∧
    ((∀ t ∈ sampleMouseTimes, ∀ t' ∈ sampleMouseTimes, t' - t < 100) ∧
     (runMouse 100 0 sampleMouseTimes).queuedTimes.length ≤ 1) :=
  ⟨(claim_C5 100 0 sampleMouseTimes).1,
   (claim_C5 100 0 sampleMouseTimes).2.1,
   by decide,
   (claim_C5 100 0 sampleMouseTimes).2.2 (by decide)⟩

/-- Helper: extending a chain by one element related to the current last
element. -/
theorem chain_snoc {α : Type} (R : α → α → Prop) (a d : α) :
    ∀ q : List α, List.Chain R a q → R (q.getLastD a) d →
      List.Chain R a (q ++ [d])
  | [], _, hd => List.Chain.cons hd List.Chain.nil
  | b :: q', h, hd => by
      rw [List.chain_cons] at h
      rw [List.cons_append, List.chain_cons]
      refine ⟨h.1, chain_snoc R b d q' h.2 ?_⟩
      rw [List.getLastD_cons] at hd
      exact hd

/-- Helper: one settled scroll signal preserves `scrollInv`. -/
theorem scroll_step_inv (s : ScrollState) (sig : ScrollSignal)
    (h : scrollInv s) : scrollInv (trackScrollFire s sig) := by
  unfold trackScrollFire
  by_cases hc : computeScrollDepth sig > s.lastScrollDepth + 10
  · simp only [if_pos hc]
    obtain ⟨hch, hlast⟩ := h
    constructor
    · refine chain_snoc _ 0 _ _ hch ?_
      rw [hlast]
      omega
    · simp [List.getLastD_concat]
  · simp only [if_neg hc]
    exact h

/-- Helper: running the milestone tracker preserves `scrollInv`. -/
theorem scroll_run_inv (sigs : List ScrollSignal) :
    ∀ s : ScrollState, scrollInv s →
      scrollInv (sigs.foldl trackScrollFire s) := by
  induction sigs with
  | nil => intro s h; exact h
  | cons sig ss ih =>
      intro s h
      exact ih _ (scroll_step_inv s sig h)

/-- Helper: a scroll position between 0 and the scrollable distance
computes a depth of at most 100 percent. -/
theorem computeScrollDepth_le_100 (sig : ScrollSignal)
    (_h0 : 0 ≤ sig.scrollTop)
    (h1 : sig.scrollTop ≤
      max sig.bodyScrollHeight sig.docScrollHeight - sig.innerHeight) :
    computeScrollDepth sig ≤ 100 := by
  simp only [computeScrollDepth]
  set d := max sig.bodyScrollHeight sig.docScrollHeight - sig.innerHeight with hd
  by_cases hpos : d > 0
  · simp only [if_pos hpos]
    have hnum : 200 * sig.scrollTop + d < 101 * (2 * d) := by nlinarith
    by_contra hq
    push_neg at hq
    have hq' : (101:Int) ≤ (200 * sig.scrollTop + d) / (2 * d) := hq
    have hmul : 2 * d * 101 ≤ 2 * d * ((200 * sig.scrollTop + d) / (2 * d)) :=
      mul_le_mul_of_nonneg_left hq' (by omega)
    have hde := Int.ediv_add_emod (200 * sig.scrollTop + d) (2 * d)
    have hr0 : 0 ≤ (200 * sig.scrollTop + d) % (2 * d) :=
      Int.emod_nonneg _ (by omega)
    linarith
  · simp only [if_neg hpos]
    norm_num

/-- Helper: if every settled signal computes a depth of at most 100, the
running maximum stays at most 100 and dominates 11 times the number of
emitted milestones. -/
theorem scroll_count_aux (sigs : List ScrollSignal) :
    (∀ sig ∈ sigs, computeScrollDepth sig ≤ 100) →
    ∀ s : ScrollState,
      11 * (s.emittedDepths.length : Int) ≤ s.lastScrollDepth →
      s.lastScrollDepth ≤ 100 →
      11 * (((sigs.foldl trackScrollFire s).emittedDepths.length : Int)) ≤
          (sigs.foldl trackScrollFire s).lastScrollDepth ∧
        (sigs.foldl trackScrollFire s).lastScrollDepth ≤ 100 := by
  induction sigs with
  | nil => intro _ s h1 h2; exact ⟨h1, h2⟩
  | cons sig ss ih =>
      intro hv s h1 h2
      simp only [List.foldl_cons]
      have hsig : computeScrollDepth sig ≤ 100 := hv sig (by simp)
      apply ih (fun x hx => hv x (by simp [hx]))
      · unfold trackScrollFire
        by_cases hc : computeScrollDepth sig > s.lastScrollDepth + 10
        · simp only [if_pos hc, List.length_append, List.length_cons,
            List.length_nil]
          push_cast
          omega
        · simp only [if_neg hc]
          exact h1
      · unfold trackScrollFire
        by_cases hc : computeScrollDepth sig > s.lastScrollDepth + 10
        · simp only [if_pos hc]
          exact hsig
        · simp only [if_neg hc]
          exact h2

/-- C4: emitted scroll depths strictly increase, each exceeding the
previously emitted depth (initially 0) by more than 10 percentage
points; and for any scroll whose positions stay within the scrollable
range (depths 0–100%), at most 100/10 scroll events are emitted. -/
theorem claim_C4 (sigs : List ScrollSignal) :
    List.Chain (fun a b : Int => a + 10 < b) 0 (runScroll sigs).emittedDepths ∧
    ((∀ sig ∈ sigs, 0 ≤ sig.scrollTop ∧
        sig.scrollTop ≤
          max sig.bodyScrollHeight sig.docScrollHeight - sig.innerHeight) →
      (runScroll sigs).emittedDepths.length ≤ 10) := by
  constructor
  · have h0 : scrollInv { lastScrollDepth := 0, emittedDepths := [] } :=
      ⟨List.Chain.nil, rfl⟩
    exact (scroll_run_inv sigs _ h0).1
  · intro hv
    have hv' : ∀ sig ∈ sigs, computeScrollDepth sig ≤ 100 := fun sig hs =>
      computeScrollDepth_le_100 sig (hv sig hs).1 (hv sig hs).2
    have hb := scroll_count_aux sigs hv'
      { lastScrollDepth := 0, emittedDepths := [] } (by simp) (by norm_num)
    unfold runScroll
    omega

theorem claim_C4_witness :
    List.Chain (fun a b : Int => a + 10 < b) 0
      (runScroll sampleScrollSignals).emittedDepths ∧
    ((∀ sig ∈ sampleScrollSignals, 0 ≤ sig.scrollTop ∧
        sig.scrollTop ≤
          max sig.bodyScrollHeight sig.docScrollHeight - sig.innerHeight) ∧
     (runScroll sampleScrollSignals).emittedDepths.length ≤ 10) :=
  ⟨(claim_C4 sampleScrollSignals).1,
   by decide,
   (claim_C4 sampleScrollSignals).2 (by decide)⟩

/-- Helper: the tracker's init executions never exceed its potential. -/
theorem initCount_le_potential (s : TrackerState) :
    s.initCount ≤ initPotential s :=
  Nat.le_add_right _ _

/-- Helper: a `setSiteId` call never increases the init potential: it
runs `init` only by consuming the unset flag. -/
theorem initPotential_setSite (v : Option String) (s : TrackerState) :
    initPotential (setSiteId v s) ≤ initPotential s := by
  cases hv : truthy v <;> cases hw : s.waInitialized <;>
    simp [setSiteId, initPotential, hv, hw]

/-- Helper: any sequence of `setSiteId` calls keeps the init potential
non-increasing. -/
theorem initPotential_setSites (vs : List (Option String)) :
    ∀ s : TrackerState,
      initPotential ((vs.map StartupEv.setSite).foldl startupStep s) ≤
        initPotential s := by
  induction vs with
  | nil => intro s; exact le_rfl
  | cons v vs ih =>
      intro s
      simp only [List.map_cons, List.foldl_cons]
      exact le_trans (ih _) (initPotential_setSite v s)

/-- Helper: the load-time dispatch raises the init potential by at most
one (it may run `init` even though the flag is already set). -/
theorem initPotential_dispatch (s : TrackerState) :
    initPotential (domReadyDispatch s) ≤ initPotential s + 1 := by
  unfold domReadyDispatch initPotential
  by_cases hc : truthy s.config.siteId = true
  · simp only [hc, if_true]
    split <;> omega
  · simp only [Bool.not_eq_true] at hc
    simp [hc]

/-- C8 as claimed is false: the `DOMContentLoaded` dispatch sets the
already-initialized flag without consulting it, so a `setSiteId`
activation while the document is still loading followed by the
load-time dispatch runs the uninitialized-to-active transition twice. -/
theorem claim_C8_counterexample :
    startupInitial.waInitialized = false ∧ startupInitial.initCount = 0 ∧
    ¬ (startupCounterexampleTrace.foldl startupStep startupInitial).initCount ≤ 1 := by
  refine ⟨rfl, rfl, ?_⟩
  decide

/-- C8 amended: the transition occurs at most once across any sequence
of `setSiteId` calls alone, and at most once when the load-time
dispatch runs before all `setSiteId` calls; in general, with the single
load-time dispatch interleaved anywhere, it occurs at most twice,
because only the `setSiteId` path is guarded by the flag. -/
theorem claim_C8_amended (vs : List (Option String)) (s : TrackerState)
    (h0 : s.initCount = 0) (h1 : s.waInitialized = false) :
    ((vs.map StartupEv.setSite).foldl startupStep s).initCount ≤ 1 ∧
    ((StartupEv.domReady :: vs.map StartupEv.setSite).foldl startupStep s).initCount ≤ 1 ∧
    ∀ l r : List (Option String),
      ((l.map StartupEv.setSite ++ StartupEv.domReady :: r.map StartupEv.setSite).foldl
          startupStep s).initCount ≤ 2 := by
  have hpot : initPotential s = 1 := by
    unfold initPotential
    rw [h0, h1]
    rfl
  refine ⟨?_, ?_, ?_⟩
  · exact le_trans (initCount_le_potential _) (le_trans (initPotential_setSites vs s) hpot.le)
  · simp only [List.foldl_cons]
    have hdp : initPotential (startupStep s .domReady) = 1 := by
      show initPotential (domReadyDispatch s) = 1
      unfold domReadyDispatch initPotential
      by_cases hc : truthy s.config.siteId = true
      · simp [hc, h0, h1]
      · simp only [Bool.not_eq_true] at hc
        simp [hc, h0, h1]
    exact le_trans (initCount_le_potential _)
      (le_trans (initPotential_setSites vs _) hdp.le)
  · intro l r
    rw [List.foldl_append]
    simp only [List.foldl_cons]
    have hl : initPotential ((l.map StartupEv.setSite).foldl startupStep s) ≤ 1 :=
      le_trans (initPotential_setSites l s) hpot.le
    have hd : initPotential
        (startupStep ((l.map StartupEv.setSite).foldl startupStep s) .domReady) ≤ 2 :=
      le_trans (initPotential_dispatch _) (by omega)
    exact le_trans (initCount_le_potential _)
      (le_trans (initPotential_setSites r _) hd)

theorem claim_C8_amended_witness :
    startupInitial.initCount = 0 ∧ startupInitial.waInitialized = false ∧
    ((([some "T1", none].map StartupEv.setSite).foldl startupStep startupInitial).initCount ≤ 1 ∧
     ((StartupEv.domReady :: [some "T1", none].map StartupEv.setSite).foldl
        startupStep startupInitial).initCount ≤ 1 ∧
     (([some "T1"].map StartupEv.setSite ++ StartupEv.domReady ::
        ([some "T2"].map StartupEv.setSite)).foldl startupStep startupInitial).initCount ≤ 2) :=
  ⟨rfl, rfl,
   (claim_C8_amended [some "T1", none] startupInitial rfl rfl).1,
   (claim_C8_amended [some "T1", none] startupInitial rfl rfl).2.1,
   (claim_C8_amended [some "T1", none] startupInitial rfl rfl).2.2 [some "T1"] [some "T2"]⟩

/-- C9 as claimed is false: the source computes
`(textContent || '').slice(0, 100).trim()` — truncation happens before
trimming — so an element whose text content is 100 spaces followed by a
letter records an empty text field, while trimming first would keep the
letter. -/
theorem claim_C9_counterexample :
    (trackClickDescriptor clickSampleElement).text ≠
      specClickText clickSampleElement.textContent := by
  decide

/-- C9 amended: the recorded text field equals the trim of the first
100 characters of the clicked element's text content (truncated first,
then whitespace-stripped); in particular it depends only on the first
100 characters of the text content. -/
theorem claim_C9_amended (target : DomElement) :
    (trackClickDescriptor target).text = jsTrim (jsSlice target.textContent 100) ∧
    ∀ t2 : DomElement, jsSlice t2.textContent 100 = jsSlice target.textContent 100 →
      (trackClickDescriptor t2).text = (trackClickDescriptor target).text := by
  refine ⟨rfl, ?_⟩
  intro t2 h
  show jsTrim (jsSlice t2.textContent 100) = jsTrim (jsSlice target.textContent 100)
  rw [h]

theorem claim_C9_amended_witness :
    (trackClickDescriptor clickSampleElement).text =
      jsTrim (jsSlice clickSampleElement.textContent 100) ∧
    (jsSlice clickSampleElement.textContent 100 =
      jsSlice clickSampleElement.textContent 100 ∧
     (trackClickDescriptor clickSampleElement).text =
      (trackClickDescriptor clickSampleElement).text) :=
  ⟨(claim_C9_amended clickSampleElement).1, rfl,
   (claim_C9_amended clickSampleElement).2 clickSampleElement rfl⟩

end WebAnalytics
